import Mathlib

/-!
# Shallow embedding of the `dns_contract` ink! module (`src/lib.rs`)

State of the contract (`DnsContract` storage struct) is embedded as a Lean
structure; the ink `Mapping`s become functions (`Option`-valued where the
source distinguishes presence via `get`/`contains`, total with the
`unwrap_or_default` default where every read in the source is defaulted).
The `i32` counters are embedded as unbounded `Int` (no claim concerns the
2^31 overflow boundary); `u128` offer prices are stored, never computed
with, and are embedded as `Nat`; `AccountId` (32 raw bytes, only ever
compared for equality) is embedded as `Nat`.

Each `#[ink(message)]` becomes a pure function from the pre-state and the
caller to a triple `(Result, post-state, emitted events)`.  Mutations the
source performs before an early `return Err(..)` persist in the post-state,
exactly as in the source's sequential body.
-/

namespace Dns

abbrev AccountId := Nat

abbrev DomainNameId := Int

/-- Offer state for a domain name (`enum State` in the source). -/
inductive State where
  | NotOffering
  | PrivateOffering
  | PublicOffering
deriving DecidableEq, Repr

/-- One claimed domain record (`struct DomainName` in the source). -/
structure DomainName where
  name : String
  offer_state : State
  offer_price : Nat
  default_address : AccountId
deriving DecidableEq, Repr

/-- Error enumeration (`enum DNSError` in the source). -/
inductive DNSError where
  | NameAlreadyExists
  | NotAOwner
  | CallerIsNotOwner
  | SameOwner
  | NameAlreadyClaimed
  | DomainAlreadyOwned
deriving DecidableEq, Repr

/-- Events emitted by the contract (`NewNameClaimed`, `SetNewOwner`). -/
inductive Event where
  | NewNameClaimed (address : AccountId)
  | SetNewOwner (address : AccountId)
deriving DecidableEq, Repr

/-- The contract storage (`struct DnsContract`).  `owner_name_count` and
`claimed` are total functions with the `unwrap_or_default` default (`0`
resp. `false`) because every read in the source is defaulted;
`domain_name` and `name_to_owner` keep the `Option` so `get`/`contains`
can distinguish presence. -/
structure DnsContract where
  owner : AccountId
  owner_name_count : AccountId → Int
  domain_name : DomainNameId → Option DomainName
  name_to_owner : String → Option AccountId
  claimed : DomainNameId → Bool
  no_of_claimed_names : Int
  domain_name_id : Int

/-- Constructor `new()`: empty mappings, `no_of_claimed_names = 0`
(`Default::default()`), `domain_name_id = 1`; the deploying caller is the
administrative owner. -/
def DnsContract.new (caller : AccountId) : DnsContract where
  owner := caller
  owner_name_count := fun _ => 0
  domain_name := fun _ => none
  name_to_owner := fun _ => none
  claimed := fun _ => false
  no_of_claimed_names := 0
  domain_name_id := 1

/-- `next_domain_name_id`: returns the current counter and the state with
the counter advanced by one. -/
def next_domain_name_id (s : DnsContract) : DomainNameId × DnsContract :=
  (s.domain_name_id, { s with domain_name_id := s.domain_name_id + 1 })

/-- Message `create_new_dns` (the claim operation).  Faithful to the source
ordering: allocate the id and read `claimed.get(name_id)` first, then the
`name_to_owner.contains` check (early `Err(DomainAlreadyOwned)`), then the
`name_to_owner.insert`, then the claimed check (early
`Err(NameAlreadyClaimed)`), then the record insert, claimed flag, total
counter, holder count, and the `NewNameClaimed` event. -/
def create_new_dns (s : DnsContract) (name : String) (offer_state : State)
    (offer_price : Nat) (caller : AccountId) :
    Except DNSError Unit × DnsContract × List Event :=
  let alloc := next_domain_name_id s
  let name_id := alloc.1
  let s1 := alloc.2
  let claimed := s1.claimed name_id
  if (s1.name_to_owner name).isSome then
    (Except.error DNSError.DomainAlreadyOwned, s1, [])
  else
    let s2 := { s1 with
      name_to_owner := fun n => if n = name then some caller else s1.name_to_owner n }
    if claimed then
      (Except.error DNSError.NameAlreadyClaimed, s2, [])
    else
      let domain_name : DomainName :=
        { name := name, offer_state := offer_state, offer_price := offer_price,
          default_address := caller }
      let s3 := { s2 with
        domain_name := fun i => if i = name_id then some domain_name else s2.domain_name i,
        claimed := fun i => if i = name_id then true else s2.claimed i,
        no_of_claimed_names := s2.no_of_claimed_names + 1,
        owner_name_count := fun a =>
          if a = caller then s2.owner_name_count caller + 1 else s2.owner_name_count a }
      (Except.ok (), s3, [Event.NewNameClaimed caller])

/-- Message `set_new_owner` (the transfer operation).  On a missing record
the source falls through the `None` arm and still emits `SetNewOwner`; on
a present record it checks the caller against `default_address`
(`NotAOwner`), then the new owner against `default_address` (`SameOwner`),
then decrements the caller's count, toggles `claimed[name_id]` with `!`,
and rewrites the record with the new holder. -/
def set_new_owner (s : DnsContract) (name_id : DomainNameId)
    (new_owner : AccountId) (caller : AccountId) :
    Except DNSError Unit × DnsContract × List Event :=
  match s.domain_name name_id with
  | some value =>
    if value.default_address ≠ caller then
      (Except.error DNSError.NotAOwner, s, [])
    else if value.default_address = new_owner then
      (Except.error DNSError.SameOwner, s, [])
    else
      (Except.ok (),
        { s with
          owner_name_count := fun a =>
            if a = caller then s.owner_name_count caller - 1 else s.owner_name_count a,
          claimed := fun i => if i = name_id then !s.claimed name_id else s.claimed i,
          domain_name := fun i =>
            if i = name_id then
              some { name := value.name, offer_state := value.offer_state,
                     offer_price := value.offer_price, default_address := new_owner }
            else s.domain_name i },
        [Event.SetNewOwner new_owner])
  | none => (Except.ok (), s, [Event.SetNewOwner new_owner])

/-- Message `get_owner_domain_name`: loop over `0..domain_name_id`, push
every present record whose `default_address` is the caller. -/
def get_owner_domain_name (s : DnsContract) (caller : AccountId) : List DomainName :=
  (List.range s.domain_name_id.toNat).foldl
    (fun acc (item : Nat) =>
      match s.domain_name (item : Int) with
      | some value => if value.default_address = caller then acc ++ [value] else acc
      | none => acc)
    []

/-- Message `get_owner`. -/
def get_owner (s : DnsContract) : AccountId :=
  s.owner

/-- Message `get_no_of_name_claimed`. -/
def get_no_of_name_claimed (s : DnsContract) : Int :=
  s.no_of_claimed_names

/-- Message `get_owner_name_count`. -/
def get_owner_name_count (s : DnsContract) (account_id : AccountId) : Int :=
  s.owner_name_count account_id

/-- Message `is_claimed`. -/
def is_claimed (s : DnsContract) (id : DomainNameId) : Bool :=
  s.claimed id

/-! ## Traces of mutating operations -/

/-- One mutating call: a claim (`create_new_dns`) or a transfer
(`set_new_owner`), with the caller identity injected. -/
inductive Op where
  | claim (name : String) (offer_state : State) (offer_price : Nat) (caller : AccountId)
  | transfer (name_id : DomainNameId) (new_owner : AccountId) (caller : AccountId)

/-- Post-state of one mutating call (errors included: the state the call
leaves behind). -/
def applyOp (s : DnsContract) : Op → DnsContract
  | Op.claim name st price caller => (create_new_dns s name st price caller).2.1
  | Op.transfer name_id new_owner caller => (set_new_owner s name_id new_owner caller).2.1

/-- Run a sequence of mutating calls from a state. -/
def run (s : DnsContract) : List Op → DnsContract
  | [] => s
  | op :: ops => run (applyOp s op) ops

/-- Invariant holding in every state reachable from a fresh registry:
the id counter is at least `1`, every id at or above the counter is
unallocated (no record, claimed flag false), record names are pairwise
distinct, and every record name is registered in `name_to_owner`. -/
structure Inv (s : DnsContract) : Prop where
  one_le : 1 ≤ s.domain_name_id
  records_lt : ∀ id : DomainNameId, s.domain_name_id ≤ id → s.domain_name id = none
  claimed_ge_false : ∀ id : DomainNameId, s.domain_name_id ≤ id → s.claimed id = false
  name_inj : ∀ id1 id2 v1 v2, s.domain_name id1 = some v1 → s.domain_name id2 = some v2 →
    v1.name = v2.name → id1 = id2
  name_reg : ∀ id v, s.domain_name id = some v → (s.name_to_owner v.name).isSome = true

/-! ## Spec-side bookkeeping: counting successful claims and transfers -/

/-- `1` when the operation is a claim by `x` that succeeds from state `s`,
else `0` (the claim's "number of successful claims performed by x",
per step). -/
def claimDelta (x : AccountId) (s : DnsContract) : Op → Int
  | Op.claim n st p c =>
    match (create_new_dns s n st p c).1 with
    | Except.ok _ => if c = x then 1 else 0
    | Except.error _ => 0
  | Op.transfer _ _ _ => 0

/-- `1` when the operation is a transfer from state `s` that succeeds on a
present record whose holder is `x` (a "successful transfer of a record
away from x"), else `0`. -/
def transferAwayDelta (x : AccountId) (s : DnsContract) : Op → Int
  | Op.claim _ _ _ _ => 0
  | Op.transfer i no c =>
    match s.domain_name i, (set_new_owner s i no c).1 with
    | some v, Except.ok _ => if v.default_address = x then 1 else 0
    | _, _ => 0

/-- Number of successful claims performed by `x` along a trace from `s`. -/
def claimsBy (x : AccountId) : DnsContract → List Op → Int
  | _, [] => 0
  | s, op :: ops => claimDelta x s op + claimsBy x (applyOp s op) ops

/-- Number of successful transfers of a record away from `x` along a trace
from `s`. -/
def transfersAwayFrom (x : AccountId) : DnsContract → List Op → Int
  | _, [] => 0
  | s, op :: ops => transferAwayDelta x s op + transfersAwayFrom x (applyOp s op) ops

/-! ## Spec-side description of the owned-domains scan -/

/-- The spec's description of `listOwnedDomains`: the records of ids `0` up
to `nextId` (exclusive), in ascending id order, restricted to those whose
holder is the caller. -/
def listOwnedDomainsSpec (s : DnsContract) (caller : AccountId) : List DomainName :=
  (List.range s.domain_name_id.toNat).filterMap fun (item : Nat) =>
    match s.domain_name (item : Int) with
    | some value => if value.default_address = caller then some value else none
    | none => none

/-- A state with the claimed flag pre-set on id 1 and the counter still
at 1.  Not reachable from a fresh registry (the reachability invariant
forbids a claimed flag at or above the counter); used to exercise the
`NameAlreadyClaimed` path of `create_new_dns`. -/
def preclaimedState : DnsContract where
  owner := 0
  owner_name_count := fun _ => 0
  domain_name := fun _ => none
  name_to_owner := fun _ => none
  claimed := fun i => i == 1
  no_of_claimed_names := 0
  domain_name_id := 1

/-! ## Case-shape lemmas for the two mutating operations -/

/-- `create_new_dns` when the name is already registered: only the id
counter advances. -/
theorem create_new_dns_owned (s : DnsContract) (n : String) (st : State) (p : Nat)
    (c : AccountId) (h : (s.name_to_owner n).isSome = true) :
    create_new_dns s n st p c =
      (Except.error DNSError.DomainAlreadyOwned,
        { s with domain_name_id := s.domain_name_id + 1 }, []) := by
  simp [create_new_dns, next_domain_name_id, h]

/-- `create_new_dns` when the name is fresh but the freshly allocated id is
already flagged claimed: the id advances and the name is registered, then
the call errors. -/
theorem create_new_dns_claimed (s : DnsContract) (n : String) (st : State) (p : Nat)
    (c : AccountId) (h1 : (s.name_to_owner n).isSome = false)
    (h2 : s.claimed s.domain_name_id = true) :
    create_new_dns s n st p c =
      (Except.error DNSError.NameAlreadyClaimed,
        { s with
          domain_name_id := s.domain_name_id + 1,
          name_to_owner := fun m => if m = n then some c else s.name_to_owner m }, []) := by
  simp [create_new_dns, next_domain_name_id, h1, h2]

/-- `create_new_dns` on the success path. -/
theorem create_new_dns_success (s : DnsContract) (n : String) (st : State) (p : Nat)
    (c : AccountId) (h1 : (s.name_to_owner n).isSome = false)
    (h2 : s.claimed s.domain_name_id = false) :
    create_new_dns s n st p c =
      (Except.ok (),
        { s with
          domain_name_id := s.domain_name_id + 1,
          name_to_owner := fun m => if m = n then some c else s.name_to_owner m,
          domain_name := fun i =>
            if i = s.domain_name_id then
              some { name := n, offer_state := st, offer_price := p, default_address := c }
            else s.domain_name i,
          claimed := fun i => if i = s.domain_name_id then true else s.claimed i,
          no_of_claimed_names := s.no_of_claimed_names + 1,
          owner_name_count := fun a =>
            if a = c then s.owner_name_count c + 1 else s.owner_name_count a },
        [Event.NewNameClaimed c]) := by
  simp [create_new_dns, next_domain_name_id, h1, h2]

/-- `set_new_owner` on a missing record: pure pass-through, event still
emitted. -/
theorem set_new_owner_none (s : DnsContract) (i : DomainNameId) (no c : AccountId)
    (h : s.domain_name i = none) :
    set_new_owner s i no c = (Except.ok (), s, [Event.SetNewOwner no]) := by
  simp [set_new_owner, h]

/-- `set_new_owner` when the caller is not the holder. -/
theorem set_new_owner_not_owner (s : DnsContract) (i : DomainNameId) (no c : AccountId)
    (v : DomainName) (h : s.domain_name i = some v) (hc : v.default_address ≠ c) :
    set_new_owner s i no c = (Except.error DNSError.NotAOwner, s, []) := by
  simp [set_new_owner, h, hc]

/-- `set_new_owner` when the caller is the holder and the target equals the
holder. -/
theorem set_new_owner_same (s : DnsContract) (i : DomainNameId) (no c : AccountId)
    (v : DomainName) (h : s.domain_name i = some v) (hc : v.default_address = c)
    (hno : v.default_address = no) :
    set_new_owner s i no c = (Except.error DNSError.SameOwner, s, []) := by
  simp [set_new_owner, h, hc, ← hno]

/-- `set_new_owner` on the success path. -/
theorem set_new_owner_success (s : DnsContract) (i : DomainNameId) (no c : AccountId)
    (v : DomainName) (h : s.domain_name i = some v) (hc : v.default_address = c)
    (hno : v.default_address ≠ no) :
    set_new_owner s i no c =
      (Except.ok (),
        { s with
          owner_name_count := fun a =>
            if a = c then s.owner_name_count c - 1 else s.owner_name_count a,
          claimed := fun j => if j = i then !s.claimed i else s.claimed j,
          domain_name := fun j =>
            if j = i then
              some { name := v.name, offer_state := v.offer_state,
                     offer_price := v.offer_price, default_address := no }
            else s.domain_name j },
        [Event.SetNewOwner no]) := by
  subst hc
  simp [set_new_owner, h, hno]

/-! ## Reachability invariant -/


theorem Inv_new (c : AccountId) : Inv (DnsContract.new c) := by
  refine ⟨le_refl 1, ?_, ?_, ?_, ?_⟩ <;> intros <;> simp_all [DnsContract.new]

theorem Inv_claim (s : DnsContract) (n : String) (st : State) (p : Nat) (c : AccountId)
    (hs : Inv s) : Inv ((create_new_dns s n st p c).2.1) := by
  cases h1 : (s.name_to_owner n).isSome with
  | true =>
    rw [create_new_dns_owned s n st p c h1]
    refine ⟨?_, ?_, ?_, hs.name_inj, hs.name_reg⟩
    · show 1 ≤ s.domain_name_id + 1
      have := hs.one_le
      omega
    · intro id hid
      have hid' : s.domain_name_id + 1 ≤ id := hid
      exact hs.records_lt id (by omega)
    · intro id hid
      have hid' : s.domain_name_id + 1 ≤ id := hid
      exact hs.claimed_ge_false id (by omega)
  | false =>
    cases h2 : s.claimed s.domain_name_id with
    | true => exact absurd (hs.claimed_ge_false _ le_rfl) (by simp [h2])
    | false =>
      rw [create_new_dns_success s n st p c h1 h2]
      refine ⟨?_, ?_, ?_, ?_, ?_⟩
      · show 1 ≤ s.domain_name_id + 1
        have := hs.one_le
        omega
      · intro id hid
        have hid' : s.domain_name_id + 1 ≤ id := hid
        have hne : ¬ id = s.domain_name_id := by
          intro e
          subst e
          omega
        show (if id = s.domain_name_id then
            some { name := n, offer_state := st, offer_price := p, default_address := c }
          else s.domain_name id) = none
        rw [if_neg hne]
        exact hs.records_lt id (by omega)
      · intro id hid
        have hid' : s.domain_name_id + 1 ≤ id := hid
        have hne : ¬ id = s.domain_name_id := by
          intro e
          subst e
          omega
        show (if id = s.domain_name_id then true else s.claimed id) = false
        rw [if_neg hne]
        exact hs.claimed_ge_false id (by omega)
      · intro id1 id2 v1 v2 hv1 hv2 hname
        dsimp only at hv1 hv2
        by_cases e1 : id1 = s.domain_name_id <;> by_cases e2 : id2 = s.domain_name_id
        · rw [e1, e2]
        · rw [if_pos e1] at hv1
          rw [if_neg e2] at hv2
          have hn1 : v1.name = n := by
            cases hv1
            rfl
          have := hs.name_reg id2 v2 hv2
          rw [← hname, hn1] at this
          rw [this] at h1
          cases h1
        · rw [if_neg e1] at hv1
          rw [if_pos e2] at hv2
          have hn2 : v2.name = n := by
            cases hv2
            rfl
          have := hs.name_reg id1 v1 hv1
          rw [hname, hn2] at this
          rw [this] at h1
          cases h1
        · rw [if_neg e1] at hv1
          rw [if_neg e2] at hv2
          exact hs.name_inj id1 id2 v1 v2 hv1 hv2 hname
      · intro id v hv
        dsimp only at hv ⊢
        by_cases e : id = s.domain_name_id
        · rw [if_pos e] at hv
          cases hv
          simp
        · rw [if_neg e] at hv
          by_cases en : v.name = n
          · simp [en]
          · rw [if_neg en]
            exact hs.name_reg id v hv

theorem Inv_transfer (s : DnsContract) (i : DomainNameId) (no c : AccountId)
    (hs : Inv s) : Inv ((set_new_owner s i no c).2.1) := by
  cases h : s.domain_name i with
  | none =>
    rw [set_new_owner_none s i no c h]
    exact hs
  | some v =>
    by_cases hc : v.default_address = c
    · by_cases hno : v.default_address = no
      · rw [set_new_owner_same s i no c v h hc hno]
        exact hs
      · rw [set_new_owner_success s i no c v h hc hno]
        have hilt : ¬ s.domain_name_id ≤ i := fun hle => by
          rw [hs.records_lt i hle] at h
          cases h
        refine ⟨hs.one_le, ?_, ?_, ?_, ?_⟩
        · intro id hid
          have hid' : s.domain_name_id ≤ id := hid
          show (if id = i then
              some { name := v.name, offer_state := v.offer_state,
                     offer_price := v.offer_price, default_address := no }
            else s.domain_name id) = none
          rw [if_neg (show ¬ id = i from fun e => by subst e; omega)]
          exact hs.records_lt id hid'
        · intro id hid
          have hid' : s.domain_name_id ≤ id := hid
          show (if id = i then !s.claimed i else s.claimed id) = false
          rw [if_neg (show ¬ id = i from fun e => by subst e; omega)]
          exact hs.claimed_ge_false id hid'
        · intro id1 id2 v1 v2 hv1 hv2 hname
          dsimp only at hv1 hv2
          by_cases e1 : id1 = i <;> by_cases e2 : id2 = i
          · rw [e1, e2]
          · rw [if_pos e1] at hv1
            rw [if_neg e2] at hv2
            have hn1 : v1.name = v.name := by
              cases hv1
              rfl
            exact hs.name_inj id1 id2 v v2 (e1 ▸ h) hv2 (hn1 ▸ hname)
          · rw [if_neg e1] at hv1
            rw [if_pos e2] at hv2
            have hn2 : v2.name = v.name := by
              cases hv2
              rfl
            exact hs.name_inj id1 id2 v1 v hv1 (e2 ▸ h) (hname.trans hn2)
          · rw [if_neg e1] at hv1
            rw [if_neg e2] at hv2
            exact hs.name_inj id1 id2 v1 v2 hv1 hv2 hname
        · intro id w hw
          dsimp only at hw ⊢
          by_cases e : id = i
          · rw [if_pos e] at hw
            have hn : w.name = v.name := by
              cases hw
              rfl
            rw [hn]
            exact hs.name_reg i v h
          · rw [if_neg e] at hw
            exact hs.name_reg id w hw
    · rw [set_new_owner_not_owner s i no c v h hc]
      exact hs

theorem Inv_applyOp (s : DnsContract) (op : Op) (hs : Inv s) : Inv (applyOp s op) := by
  cases op with
  | claim n st p c => exact Inv_claim s n st p c hs
  | transfer i no c => exact Inv_transfer s i no c hs

theorem Inv_run (s : DnsContract) (ops : List Op) (hs : Inv s) : Inv (run s ops) := by
  induction ops generalizing s with
  | nil => exact hs
  | cons op ops ih => exact ih (applyOp s op) (Inv_applyOp s op hs)

theorem Inv_reachable (c : AccountId) (ops : List Op) : Inv (run (DnsContract.new c) ops) :=
  Inv_run (DnsContract.new c) ops (Inv_new c)

/-! ## Component and monotonicity lemmas -/

theorem create_new_dns_domain_name_id (s : DnsContract) (n : String) (st : State) (p : Nat)
    (c : AccountId) :
    (create_new_dns s n st p c).2.1.domain_name_id = s.domain_name_id + 1 := by
  cases h1 : (s.name_to_owner n).isSome with
  | true => rw [create_new_dns_owned s n st p c h1]
  | false =>
    cases h2 : s.claimed s.domain_name_id with
    | true => rw [create_new_dns_claimed s n st p c h1 h2]
    | false => rw [create_new_dns_success s n st p c h1 h2]

theorem set_new_owner_domain_name_id (s : DnsContract) (i : DomainNameId) (no c : AccountId) :
    (set_new_owner s i no c).2.1.domain_name_id = s.domain_name_id := by
  cases h : s.domain_name i with
  | none => rw [set_new_owner_none s i no c h]
  | some v =>
    by_cases hc : v.default_address = c
    · by_cases hno : v.default_address = no
      · rw [set_new_owner_same s i no c v h hc hno]
      · rw [set_new_owner_success s i no c v h hc hno]
    · rw [set_new_owner_not_owner s i no c v h hc]

theorem set_new_owner_name_to_owner (s : DnsContract) (i : DomainNameId) (no c : AccountId) :
    (set_new_owner s i no c).2.1.name_to_owner = s.name_to_owner := by
  cases h : s.domain_name i with
  | none => rw [set_new_owner_none s i no c h]
  | some v =>
    by_cases hc : v.default_address = c
    · by_cases hno : v.default_address = no
      · rw [set_new_owner_same s i no c v h hc hno]
      · rw [set_new_owner_success s i no c v h hc hno]
    · rw [set_new_owner_not_owner s i no c v h hc]

theorem create_new_dns_name_to_owner_mono (s : DnsContract) (n : String) (st : State)
    (p : Nat) (c : AccountId) (m : String) (a : AccountId)
    (h : s.name_to_owner m = some a) :
    (create_new_dns s n st p c).2.1.name_to_owner m = some a := by
  cases h1 : (s.name_to_owner n).isSome with
  | true =>
    rw [create_new_dns_owned s n st p c h1]
    exact h
  | false =>
    have hmn : ¬ m = n := by
      intro e
      subst e
      rw [h] at h1
      simp at h1
    cases h2 : s.claimed s.domain_name_id with
    | true =>
      rw [create_new_dns_claimed s n st p c h1 h2]
      show (if m = n then some c else s.name_to_owner m) = some a
      rw [if_neg hmn]
      exact h
    | false =>
      rw [create_new_dns_success s n st p c h1 h2]
      show (if m = n then some c else s.name_to_owner m) = some a
      rw [if_neg hmn]
      exact h

theorem create_new_dns_ok_name_to_owner (s : DnsContract) (n : String) (st : State)
    (p : Nat) (c : AccountId) (hok : (create_new_dns s n st p c).1 = Except.ok ()) :
    (create_new_dns s n st p c).2.1.name_to_owner n = some c := by
  cases h1 : (s.name_to_owner n).isSome with
  | true =>
    rw [create_new_dns_owned s n st p c h1] at hok
    simp at hok
  | false =>
    cases h2 : s.claimed s.domain_name_id with
    | true =>
      rw [create_new_dns_claimed s n st p c h1 h2] at hok
      simp at hok
    | false =>
      rw [create_new_dns_success s n st p c h1 h2]
      show (if n = n then some c else s.name_to_owner n) = some c
      rw [if_pos rfl]

theorem applyOp_name_to_owner_mono (s : DnsContract) (op : Op) (m : String) (a : AccountId)
    (h : s.name_to_owner m = some a) : (applyOp s op).name_to_owner m = some a := by
  cases op with
  | claim n st p c => exact create_new_dns_name_to_owner_mono s n st p c m a h
  | transfer i no c =>
    show (set_new_owner s i no c).2.1.name_to_owner m = some a
    rw [set_new_owner_name_to_owner s i no c]
    exact h

theorem run_name_to_owner_mono (s : DnsContract) (ops : List Op) (m : String) (a : AccountId)
    (h : s.name_to_owner m = some a) : (run s ops).name_to_owner m = some a := by
  induction ops generalizing s with
  | nil => exact h
  | cons op ops ih => exact ih (applyOp s op) (applyOp_name_to_owner_mono s op m a h)

theorem applyOp_domain_name_id_le (s : DnsContract) (op : Op) :
    s.domain_name_id ≤ (applyOp s op).domain_name_id := by
  cases op with
  | claim n st p c =>
    show s.domain_name_id ≤ (create_new_dns s n st p c).2.1.domain_name_id
    rw [create_new_dns_domain_name_id]
    omega
  | transfer i no c =>
    show s.domain_name_id ≤ (set_new_owner s i no c).2.1.domain_name_id
    rw [set_new_owner_domain_name_id]

theorem run_domain_name_id_le (s : DnsContract) (ops : List Op) :
    s.domain_name_id ≤ (run s ops).domain_name_id := by
  induction ops generalizing s with
  | nil => exact le_refl _
  | cons op ops ih => exact le_trans (applyOp_domain_name_id_le s op) (ih (applyOp s op))

theorem create_new_dns_owner_name_count (s : DnsContract) (n : String) (st : State)
    (p : Nat) (c : AccountId) (x : AccountId) :
    (create_new_dns s n st p c).2.1.owner_name_count x =
      s.owner_name_count x +
        (match (create_new_dns s n st p c).1 with
         | Except.ok _ => if c = x then 1 else 0
         | Except.error _ => 0) := by
  cases h1 : (s.name_to_owner n).isSome with
  | true =>
    rw [create_new_dns_owned s n st p c h1]
    simp
  | false =>
    cases h2 : s.claimed s.domain_name_id with
    | true =>
      rw [create_new_dns_claimed s n st p c h1 h2]
      simp
    | false =>
      rw [create_new_dns_success s n st p c h1 h2]
      show (if x = c then s.owner_name_count c + 1 else s.owner_name_count x) =
        s.owner_name_count x + (if c = x then 1 else 0)
      by_cases hx : x = c
      · subst hx
        simp
      · rw [if_neg hx, if_neg (fun e => hx e.symm)]
        simp

theorem set_new_owner_owner_name_count (s : DnsContract) (i : DomainNameId)
    (no c : AccountId) (x : AccountId) :
    (set_new_owner s i no c).2.1.owner_name_count x =
      s.owner_name_count x -
        (match s.domain_name i, (set_new_owner s i no c).1 with
         | some v, Except.ok _ => if v.default_address = x then 1 else 0
         | _, _ => 0) := by
  cases h : s.domain_name i with
  | none =>
    rw [set_new_owner_none s i no c h]
    simp
  | some v =>
    by_cases hc : v.default_address = c
    · by_cases hno : v.default_address = no
      · rw [set_new_owner_same s i no c v h hc hno]
        simp
      · rw [set_new_owner_success s i no c v h hc hno]
        show (if x = c then s.owner_name_count c - 1 else s.owner_name_count x) =
          s.owner_name_count x - (if v.default_address = x then 1 else 0)
        rw [hc]
        by_cases hx : x = c
        · subst hx
          simp
        · rw [if_neg hx, if_neg (fun e => hx e.symm)]
          simp
    · rw [set_new_owner_not_owner s i no c v h hc]
      simp


theorem applyOp_owner_name_count (s : DnsContract) (op : Op) (x : AccountId) :
    (applyOp s op).owner_name_count x =
      s.owner_name_count x + claimDelta x s op - transferAwayDelta x s op := by
  cases op with
  | claim n st p c =>
    show (create_new_dns s n st p c).2.1.owner_name_count x = _
    rw [create_new_dns_owner_name_count s n st p c x]
    simp only [claimDelta, transferAwayDelta]
    ring
  | transfer i no c =>
    show (set_new_owner s i no c).2.1.owner_name_count x = _
    rw [set_new_owner_owner_name_count s i no c x]
    simp only [claimDelta, transferAwayDelta]
    ring

theorem run_owner_name_count (x : AccountId) (ops : List Op) (s : DnsContract) :
    (run s ops).owner_name_count x =
      s.owner_name_count x + claimsBy x s ops - transfersAwayFrom x s ops := by
  induction ops generalizing s with
  | nil =>
    show s.owner_name_count x = s.owner_name_count x + 0 - 0
    ring
  | cons op ops ih =>
    show (run (applyOp s op) ops).owner_name_count x = _
    rw [ih (applyOp s op), applyOp_owner_name_count s op x]
    simp only [claimsBy, transfersAwayFrom]
    ring


theorem get_owner_domain_name_go (s : DnsContract) (c : AccountId) (l : List Nat)
    (acc : List DomainName) :
    l.foldl
      (fun acc (item : Nat) =>
        match s.domain_name (item : Int) with
        | some value => if value.default_address = c then acc ++ [value] else acc
        | none => acc)
      acc =
      acc ++ l.filterMap (fun (item : Nat) =>
        match s.domain_name (item : Int) with
        | some value => if value.default_address = c then some value else none
        | none => none) := by
  induction l generalizing acc with
  | nil => simp
  | cons a l ih =>
    simp only [List.foldl_cons, List.filterMap_cons]
    cases h : s.domain_name (a : Int) with
    | none => simp [h, ih]
    | some value =>
      by_cases hv : value.default_address = c
      · simp [h, hv, ih]
      · simp [h, hv, ih]

theorem get_owner_domain_name_eq_spec (s : DnsContract) (c : AccountId) :
    get_owner_domain_name s c = listOwnedDomainsSpec s c := by
  show _ = listOwnedDomainsSpec s c
  rw [get_owner_domain_name, listOwnedDomainsSpec, get_owner_domain_name_go]
  simp

/-! ## Claim theorems -/

/-- C3: in every state reachable from a fresh registry by claim and
transfer operations, the freshly allocated id of a claim call (the current
`domain_name_id`) has `claimed` equal to `false`, so `create_new_dns`
never returns `NameAlreadyClaimed` — the defensive check is dead code on
reachable states. -/
theorem dead_defensive_branch (creator : AccountId) (ops : List Op) (n : String)
    (st : State) (p : Nat) (c : AccountId) :
    (run (DnsContract.new creator) ops).claimed
        (run (DnsContract.new creator) ops).domain_name_id = false ∧
    (create_new_dns (run (DnsContract.new creator) ops) n st p c).1 ≠
      Except.error DNSError.NameAlreadyClaimed := by
  have hs := Inv_reachable creator ops
  have hcl := hs.claimed_ge_false _ (le_refl _)
  refine ⟨hcl, ?_⟩
  cases h1 : ((run (DnsContract.new creator) ops).name_to_owner n).isSome with
  | true =>
    rw [create_new_dns_owned _ n st p c h1]
    simp
  | false =>
    rw [create_new_dns_success _ n st p c h1 hcl]
    simp

/-- C5: a transfer on an id with no record succeeds, returns the state
unchanged, and still emits the owner-changed event carrying the new
holder. -/
theorem vacuous_transfer (s : DnsContract) (i : DomainNameId) (no c : AccountId)
    (h : s.domain_name i = none) :
    set_new_owner s i no c = (Except.ok (), s, [Event.SetNewOwner no]) :=
  set_new_owner_none s i no c h

theorem vacuous_transfer_witness :
    (DnsContract.new 0).domain_name 999 = none ∧
    set_new_owner (DnsContract.new 0) 999 5 7 =
      (Except.ok (), DnsContract.new 0, [Event.SetNewOwner 5]) :=
  ⟨rfl, vacuous_transfer (DnsContract.new 0) 999 5 7 rfl⟩

/-- C6: a transfer on an existing record whose holder is the caller, with
a new holder different from the caller, succeeds; it decrements the
caller's holding count by exactly 1 (other identities unchanged), replaces
`claimed[id]` by its logical negation (other ids unchanged), rewrites only
the record's holder field (name, offer state, offer price unchanged; other
records unchanged), leaves the remaining state components unchanged, and
emits the owner-changed event with the new holder. -/
theorem transfer_success_postcondition (s : DnsContract) (id : DomainNameId)
    (no c : AccountId) (v : DomainName) (h : s.domain_name id = some v)
    (hc : v.default_address = c) (hno : no ≠ c) :
    (set_new_owner s id no c).1 = Except.ok () ∧
    get_owner_name_count (set_new_owner s id no c).2.1 c = get_owner_name_count s c - 1 ∧
    (∀ a, a ≠ c →
      get_owner_name_count (set_new_owner s id no c).2.1 a = get_owner_name_count s a) ∧
    is_claimed (set_new_owner s id no c).2.1 id = !is_claimed s id ∧
    (∀ j, j ≠ id → is_claimed (set_new_owner s id no c).2.1 j = is_claimed s j) ∧
    (set_new_owner s id no c).2.1.domain_name id =
      some { name := v.name, offer_state := v.offer_state, offer_price := v.offer_price,
             default_address := no } ∧
    (∀ j, j ≠ id → (set_new_owner s id no c).2.1.domain_name j = s.domain_name j) ∧
    (set_new_owner s id no c).2.1.name_to_owner = s.name_to_owner ∧
    (set_new_owner s id no c).2.1.no_of_claimed_names = s.no_of_claimed_names ∧
    (set_new_owner s id no c).2.1.domain_name_id = s.domain_name_id ∧
    (set_new_owner s id no c).2.2 = [Event.SetNewOwner no] := by
  have hno' : v.default_address ≠ no := fun e => hno (e.symm.trans hc)
  rw [set_new_owner_success s id no c v h hc hno']
  refine ⟨rfl, ?_, ?_, ?_, ?_, ?_, ?_, rfl, rfl, rfl, rfl⟩
  · show (if c = c then s.owner_name_count c - 1 else s.owner_name_count c) =
      s.owner_name_count c - 1
    rw [if_pos rfl]
  · intro a ha
    show (if a = c then s.owner_name_count c - 1 else s.owner_name_count a) =
      s.owner_name_count a
    rw [if_neg ha]
  · show (if id = id then !s.claimed id else s.claimed id) = !s.claimed id
    rw [if_pos rfl]
  · intro j hj
    show (if j = id then !s.claimed id else s.claimed j) = s.claimed j
    rw [if_neg hj]
  · show (if id = id then
        some { name := v.name, offer_state := v.offer_state, offer_price := v.offer_price,
               default_address := no }
      else s.domain_name id) = _
    rw [if_pos rfl]
  · intro j hj
    show (if j = id then
        some { name := v.name, offer_state := v.offer_state, offer_price := v.offer_price,
               default_address := no }
      else s.domain_name j) = s.domain_name j
    rw [if_neg hj]

theorem transfer_success_postcondition_witness :
    (run (DnsContract.new 0) [Op.claim "a" State.NotOffering 0 1]).domain_name 1 =
      some { name := "a", offer_state := State.NotOffering, offer_price := 0,
             default_address := 1 } ∧
    (2 : AccountId) ≠ 1 ∧
    (set_new_owner (run (DnsContract.new 0) [Op.claim "a" State.NotOffering 0 1]) 1 2 1).1 =
      Except.ok () ∧
    get_owner_name_count
      (set_new_owner (run (DnsContract.new 0) [Op.claim "a" State.NotOffering 0 1]) 1 2 1).2.1
      1 = 0 := by
  have hpost := transfer_success_postcondition
    (run (DnsContract.new 0) [Op.claim "a" State.NotOffering 0 1]) 1 2 1
    { name := "a", offer_state := State.NotOffering, offer_price := 0, default_address := 1 }
    (by rfl) (by rfl) (by decide)
  exact ⟨by rfl, by decide, hpost.1, hpost.2.1.trans (by rfl)⟩

/-- C7: starting from a fresh registry, `get_owner_name_count x` after any
trace equals the number of successful claims performed by `x` minus the
number of successful transfers of a record away from `x` (transfers into
`x` do not increment it), and the value can go negative, witnessed by a
concrete trace in which identity 2 receives a record by transfer and then
transfers it away without ever claiming. -/
theorem holding_count_accounting :
    (∀ (creator : AccountId) (ops : List Op) (x : AccountId),
      get_owner_name_count (run (DnsContract.new creator) ops) x =
        claimsBy x (DnsContract.new creator) ops -
          transfersAwayFrom x (DnsContract.new creator) ops) ∧
    get_owner_name_count
        (run (DnsContract.new 0)
          [Op.claim "a" State.NotOffering 0 1, Op.transfer 1 2 1, Op.transfer 1 1 2]) 2 =
      -1 := by
  constructor
  · intro creator ops x
    show (run (DnsContract.new creator) ops).owner_name_count x = _
    rw [run_owner_name_count x ops (DnsContract.new creator)]
    show (0 : Int) + _ - _ = _
    ring
  · rfl

/-- C8: the id counter starts at 1, every claim call (successful or not)
advances it by exactly 1, transfers never change it, any trace can only
increase it, and the id assigned to a claim (the counter value at call
time) is strictly below the counter at every later point — so ids of
successive successful claims strictly increase and no id is assigned
twice. -/
theorem monotonic_id_allocation :
    (∀ c : AccountId, (DnsContract.new c).domain_name_id = 1) ∧
    (∀ (s : DnsContract) (n : String) (st : State) (p : Nat) (c : AccountId),
      (create_new_dns s n st p c).2.1.domain_name_id = s.domain_name_id + 1) ∧
    (∀ (s : DnsContract) (i : DomainNameId) (no c : AccountId),
      (set_new_owner s i no c).2.1.domain_name_id = s.domain_name_id) ∧
    (∀ (s : DnsContract) (ops : List Op),
      s.domain_name_id ≤ (run s ops).domain_name_id) ∧
    (∀ (s : DnsContract) (ops : List Op) (n : String) (st : State) (p : Nat)
      (c : AccountId),
      s.domain_name_id < (run (applyOp s (Op.claim n st p c)) ops).domain_name_id) := by
  refine ⟨fun _ => rfl, create_new_dns_domain_name_id, set_new_owner_domain_name_id,
    run_domain_name_id_le, ?_⟩
  intro s ops n st p c
  have h1 : (applyOp s (Op.claim n st p c)).domain_name_id = s.domain_name_id + 1 :=
    create_new_dns_domain_name_id s n st p c
  have h2 := run_domain_name_id_le (applyOp s (Op.claim n st p c)) ops
  rw [h1] at h2
  omega

/-- C9: the owned-domains query is pure in this embedding (it takes the
state and returns a list, touching nothing), and it returns exactly the
records of ids 0 up to `domain_name_id` (exclusive) whose holder is the
caller, in ascending id order (`listOwnedDomainsSpec`); on a fresh
registry, where no record matches, it returns the empty list. -/
theorem list_owned_domains_correct (s : DnsContract) (c : AccountId) :
    get_owner_domain_name s c = listOwnedDomainsSpec s c ∧
    (∀ creator : AccountId, get_owner_domain_name (DnsContract.new creator) c = []) :=
  ⟨get_owner_domain_name_eq_spec s c, fun _ => by rfl⟩

/-- C1: from a fresh registry, record names are unique — at most one
record ever carries a given name `n` — and once a claim of `n` has
succeeded, every later claim of `n`, by any caller and after any further
operations, fails with `DomainAlreadyOwned`. -/
theorem name_uniqueness (creator : AccountId) (ops : List Op) (n : String) (st : State)
    (p : Nat) (c : AccountId) :
    (∀ id1 id2 v1 v2,
      (run (DnsContract.new creator) ops).domain_name id1 = some v1 →
      (run (DnsContract.new creator) ops).domain_name id2 = some v2 →
      v1.name = n → v2.name = n → id1 = id2) ∧
    ((create_new_dns (run (DnsContract.new creator) ops) n st p c).1 = Except.ok () →
      ∀ (ops' : List Op) (st' : State) (p' : Nat) (c' : AccountId),
        (create_new_dns
            (run (create_new_dns (run (DnsContract.new creator) ops) n st p c).2.1 ops')
            n st' p' c').1 = Except.error DNSError.DomainAlreadyOwned) := by
  have hs := Inv_reachable creator ops
  constructor
  · intro id1 id2 v1 v2 h1 h2 e1 e2
    exact hs.name_inj id1 id2 v1 v2 h1 h2 (e1.trans e2.symm)
  · intro hok ops' st' p' c'
    have h1 := create_new_dns_ok_name_to_owner _ n st p c hok
    have h2 := run_name_to_owner_mono _ ops' n c h1
    rw [create_new_dns_owned _ n st' p' c' (by rw [h2]; rfl)]

theorem name_uniqueness_witness :
    (create_new_dns (run (DnsContract.new 0) []) "a" State.NotOffering 0 1).1 =
      Except.ok () ∧
    (create_new_dns
        (run (create_new_dns (run (DnsContract.new 0) []) "a" State.NotOffering 0 1).2.1 [])
        "a" State.PublicOffering 5 2).1 = Except.error DNSError.DomainAlreadyOwned :=
  ⟨by rfl, (name_uniqueness 0 [] "a" State.NotOffering 0 1).2 (by rfl) []
    State.PublicOffering 5 2⟩


/-- C2 counterexample: quantified over every registry state, the claim is
false — on `preclaimedState` the claim call returns the error
`NameAlreadyClaimed`, yet `name_to_owner` has been mutated (side effect
(2) happened on an error path), because the source inserts into
`name_to_owner` before the claimed check. -/
theorem claim_error_atomicity_cex :
    (create_new_dns preclaimedState "a" State.NotOffering 0 7).1 =
      Except.error DNSError.NameAlreadyClaimed ∧
    preclaimedState.name_to_owner "a" = none ∧
    (create_new_dns preclaimedState "a" State.NotOffering 0 7).2.1.name_to_owner "a" =
      some 7 :=
  ⟨by rfl, by rfl, by rfl⟩

/-- C2 amended: restricted to states reachable from a fresh registry
(where the `NameAlreadyClaimed` branch is dead), every claim call that
returns an error returns `DomainAlreadyOwned`, mutates nothing but the id
counter (which advances by 1), and emits no event; in particular the
uniqueness check precedes every holder-table mutation. -/
theorem claim_error_atomicity_amended (creator : AccountId) (ops : List Op) (n : String)
    (st : State) (p : Nat) (c : AccountId) (e : DNSError)
    (h : (create_new_dns (run (DnsContract.new creator) ops) n st p c).1 =
      Except.error e) :
    e = DNSError.DomainAlreadyOwned ∧
    (create_new_dns (run (DnsContract.new creator) ops) n st p c).2.1 =
      { run (DnsContract.new creator) ops with
        domain_name_id := (run (DnsContract.new creator) ops).domain_name_id + 1 } ∧
    (create_new_dns (run (DnsContract.new creator) ops) n st p c).2.2 = [] := by
  have hs := Inv_reachable creator ops
  have hcl := hs.claimed_ge_false _ (le_refl _)
  cases h1 : ((run (DnsContract.new creator) ops).name_to_owner n).isSome with
  | true =>
    rw [create_new_dns_owned _ n st p c h1] at h ⊢
    have h' : (Except.error DNSError.DomainAlreadyOwned : Except DNSError Unit) =
      Except.error e := h
    exact ⟨(Except.error.inj h').symm, rfl, rfl⟩
  | false =>
    rw [create_new_dns_success _ n st p c h1 hcl] at h
    simp at h

theorem claim_error_atomicity_witness :
    (create_new_dns (run (DnsContract.new 0) [Op.claim "a" State.NotOffering 0 1]) "a"
        State.PrivateOffering 3 2).1 = Except.error DNSError.DomainAlreadyOwned ∧
    (create_new_dns (run (DnsContract.new 0) [Op.claim "a" State.NotOffering 0 1]) "a"
        State.PrivateOffering 3 2).2.1 =
      { run (DnsContract.new 0) [Op.claim "a" State.NotOffering 0 1] with
        domain_name_id :=
          (run (DnsContract.new 0) [Op.claim "a" State.NotOffering 0 1]).domain_name_id
            + 1 } :=
  ⟨by rfl,
    (claim_error_atomicity_amended 0 [Op.claim "a" State.NotOffering 0 1] "a"
      State.PrivateOffering 3 2 DNSError.DomainAlreadyOwned (by rfl)).2.1⟩

/-- C4 counterexample: the claim's "fails with SameOwner iff newHolder
equals the current holder" is false — here the record of id 1 exists with
holder 1, the transfer names newHolder 1 (equal to the holder) but is
invoked by caller 2, and the call fails with `NotAOwner`, not `SameOwner`
(the caller check runs first). -/
theorem transfer_auth_cex :
    (run (DnsContract.new 0) [Op.claim "a" State.NotOffering 0 1]).domain_name 1 =
      some { name := "a", offer_state := State.NotOffering, offer_price := 0,
             default_address := 1 } ∧
    (set_new_owner (run (DnsContract.new 0) [Op.claim "a" State.NotOffering 0 1])
        1 1 2).1 = Except.error DNSError.NotAOwner ∧
    (set_new_owner (run (DnsContract.new 0) [Op.claim "a" State.NotOffering 0 1])
        1 1 2).1 ≠ Except.error DNSError.SameOwner := by
  refine ⟨by rfl, by rfl, ?_⟩
  intro h
  have h' : (Except.error DNSError.NotAOwner : Except DNSError Unit) =
    Except.error DNSError.SameOwner := h
  exact DNSError.noConfusion (Except.error.inj h')

/-- C4 amended: on an existing record, a transfer fails with `NotAOwner`
iff the caller differs from the record's holder, and fails with
`SameOwner` iff the caller equals the holder and the new holder equals the
holder; on either error the registry state is returned unchanged and no
event is emitted. -/
theorem transfer_auth_amended (s : DnsContract) (i : DomainNameId) (no c : AccountId)
    (v : DomainName) (h : s.domain_name i = some v) :
    ((set_new_owner s i no c).1 = Except.error DNSError.NotAOwner ↔
      c ≠ v.default_address) ∧
    ((set_new_owner s i no c).1 = Except.error DNSError.SameOwner ↔
      (c = v.default_address ∧ no = v.default_address)) ∧
    (∀ e, (set_new_owner s i no c).1 = Except.error e →
      (set_new_owner s i no c).2.1 = s ∧ (set_new_owner s i no c).2.2 = []) := by
  by_cases hc : v.default_address = c
  · by_cases hno : v.default_address = no
    · rw [set_new_owner_same s i no c v h hc hno]
      refine ⟨by simp [← hc], by simp [← hc, ← hno], ?_⟩
      intro e _
      exact ⟨rfl, rfl⟩
    · rw [set_new_owner_success s i no c v h hc hno]
      refine ⟨by simp [← hc], by simp [← hc, Ne.symm hno], ?_⟩
      intro e he
      simp at he
  · rw [set_new_owner_not_owner s i no c v h hc]
    refine ⟨by simp [Ne.symm hc], by simp [Ne.symm hc], ?_⟩
    intro e _
    exact ⟨rfl, rfl⟩

theorem transfer_auth_amended_witness :
    (run (DnsContract.new 0) [Op.claim "a" State.NotOffering 0 1]).domain_name 1 =
      some { name := "a", offer_state := State.NotOffering, offer_price := 0,
             default_address := 1 } ∧
    (set_new_owner (run (DnsContract.new 0) [Op.claim "a" State.NotOffering 0 1])
        1 5 2).1 = Except.error DNSError.NotAOwner :=
  ⟨by rfl,
    ((transfer_auth_amended (run (DnsContract.new 0) [Op.claim "a" State.NotOffering 0 1])
        1 5 2
        { name := "a", offer_state := State.NotOffering, offer_price := 0,
          default_address := 1 } (by rfl)).1).mpr (by decide)⟩

/-- C10: no operation ever removes or rewrites an existing `name_to_owner`
entry (per step and along any trace), so after a successful claim of `n`
by `a` the entry `name_to_owner n = some a` persists through every later
trace; concretely, after claiming "a" as identity 1 and transferring the
record to identity 2, `name_to_owner "a"` still names 1 while the record's
holder is 2 — the two tables disagree permanently. -/
theorem stale_name_owner :
    (∀ (s : DnsContract) (op : Op) (m : String) (a : AccountId),
      s.name_to_owner m = some a → (applyOp s op).name_to_owner m = some a) ∧
    (∀ (s : DnsContract) (ops : List Op) (m : String) (a : AccountId),
      s.name_to_owner m = some a → (run s ops).name_to_owner m = some a) ∧
    (∀ (s : DnsContract) (n : String) (st : State) (p : Nat) (c : AccountId),
      (create_new_dns s n st p c).1 = Except.ok () →
      ∀ ops : List Op,
        (run (create_new_dns s n st p c).2.1 ops).name_to_owner n = some c) ∧
    (run (DnsContract.new 0)
        [Op.claim "a" State.NotOffering 0 1, Op.transfer 1 2 1]).name_to_owner "a" =
      some 1 ∧
    (run (DnsContract.new 0)
        [Op.claim "a" State.NotOffering 0 1, Op.transfer 1 2 1]).domain_name 1 =
      some { name := "a", offer_state := State.NotOffering, offer_price := 0,
             default_address := 2 } := by
  refine ⟨applyOp_name_to_owner_mono, run_name_to_owner_mono, ?_, by rfl, by rfl⟩
  intro s n st p c hok ops
  exact run_name_to_owner_mono _ ops n c (create_new_dns_ok_name_to_owner s n st p c hok)

theorem stale_name_owner_witness :
    (create_new_dns (DnsContract.new 0) "a" State.NotOffering 0 1).1 = Except.ok () ∧
    (run (create_new_dns (DnsContract.new 0) "a" State.NotOffering 0 1).2.1
        [Op.transfer 1 2 1]).name_to_owner "a" = some 1 :=
  ⟨by rfl,
    stale_name_owner.2.2.1 (DnsContract.new 0) "a" State.NotOffering 0 1 (by rfl)
      [Op.transfer 1 2 1]⟩

end Dns
